import Mathlib

/-!
Shallow embedding of the earnings-call summarization API route
(`src/unnamed/part_002`, a Next.js route handler) of the
Management-Commentary-Summary repository.

The route receives a form upload (a tool selector and a file), extracts
text from the file (PDF parsing or UTF-8 decoding), decides between a
text path and a binary "scanned PDF" path, issues one call to the
external Gemini model, and returns the parsed JSON payload (or a
classified error response).

Host/runtime primitives of the source (PDF parsing, UTF-8 decoding,
base64 encoding, the network call to the model, `JSON.parse`, and the
`GEMINI_API_KEY` environment variable) are modelled as components of an
explicit `Env` record threaded through the functions; the control flow
and all constants are translated directly from the TypeScript source.
Theorems quantified over the whole `Env` therefore also establish
non-invocation facts: when a result is a constant independent of the
`Env`, none of the host primitives in it can have influenced the
outcome.
-/

/-- `const MAX_CHARS = 40_000` (src/unnamed/part_002 line 6). -/
def MAX_CHARS : Nat := 40000

/-- `const MAX_FILE_BYTES = 20 * 1024 * 1024` (src/unnamed/part_002 line 7). -/
def MAX_FILE_BYTES : Nat := 20 * 1024 * 1024

/-- A JSON value, as produced by `JSON.parse`. Objects keep their key
order, matching JavaScript object semantics. -/
inductive Json where
  | null : Json
  | bool : Bool → Json
  | num : Int → Json
  | str : String → Json
  | arr : List Json → Json
  | obj : List (String × Json) → Json

/-- An uploaded `File`: name, declared MIME type, and raw bytes. -/
structure UploadedFile where
  name : String
  type : String
  bytes : List Nat

/-- The `inlineData` payload attached for the Vision/OCR path:
a MIME type plus base64-encoded data. -/
structure InlineData where
  mimeType : String
  data : String

/-- One part of a Gemini `contents` entry: either text or inline data. -/
inductive MsgPart where
  | text : String → MsgPart
  | inlineData : InlineData → MsgPart

/-- One entry of the `contents` array sent to the model. -/
structure Content where
  role : String
  parts : List MsgPart

/-- Host and runtime primitives used by the route, made explicit:
the `GEMINI_API_KEY` environment variable, `pdf-parse` (`none` models
a parse that throws), `Buffer.toString("utf-8")`,
`Buffer.toString("base64")`, the network call
`ai.models.generateContent` (error = the call throws; `ok none` = the
response has no text), and `JSON.parse` (`none` models a throw). -/
structure Env where
  apiKey : Option String
  pdfParse : List Nat → Option String
  utf8Decode : List Nat → String
  base64 : List Nat → String
  modelCall : List Content → Except String (Option String)
  parseJson : String → Option Json

/-- JavaScript `String.prototype.toLowerCase()` (ASCII-relevant part). -/
def jsToLower (s : String) : String := ⟨s.data.map Char.toLower⟩

/-- JavaScript `String.prototype.endsWith(pat)`. -/
def jsEndsWith (s pat : String) : Bool := pat.data.isSuffixOf s.data

/-- JavaScript `String.prototype.trim()`: strip whitespace from both ends. -/
def jsTrim (s : String) : String :=
  ⟨((s.data.dropWhile Char.isWhitespace).reverse.dropWhile Char.isWhitespace).reverse⟩

/-- The PDF-format test used at lines 200 and 285 of the source:
`file.type === "application/pdf" || file.name.toLowerCase().endsWith(".pdf")`. -/
def isPdfFile (f : UploadedFile) : Bool :=
  f.type == "application/pdf" || jsEndsWith (jsToLower f.name) ".pdf"

/-- Error message thrown for oversize uploads (lines 192-194). -/
def tooLargeMsg : String :=
  "File is too large for this demo environment. Please keep files under ~20 MB."

/-- Result of `extractTextFromFile`: the extracted text and the raw buffer. -/
structure ExtractResult where
  text : String
  buffer : List Nat

/-- `extractTextFromFile` (lines 189-216): reject oversize uploads, then
either PDF-parse (a parse failure is caught and leaves `text = ""`) or
decode the bytes as UTF-8. -/
def extractTextFromFile (env : Env) (f : UploadedFile) : Except String ExtractResult :=
  if f.bytes.length > MAX_FILE_BYTES then
    .error tooLargeMsg
  else
    let text :=
      if isPdfFile f then
        match env.pdfParse f.bytes with
        | some t => t
        | none => ""
      else
        env.utf8Decode f.bytes
    .ok { text := text, buffer := f.bytes }

/-- Error message for a missing `GEMINI_API_KEY` (lines 224-226). -/
def configMissingMsg : String :=
  "GEMINI_API_KEY is not configured. Please set it in your environment."

/-- Error message when the model response has no text (line 252). -/
def noTextMsg : String := "No text returned from Gemini model."

/-- Message carried by a `JSON.parse` SyntaxError (line 255); the exact
wording is produced by the JavaScript runtime and is not relied on. -/
def jsonParseFailMsg : String := "Unexpected token in JSON"

/-- The fixed system prompt (lines 36-104), prepended to every request.
Its content is opaque to all control flow. -/
def SYSTEM_PROMPT : String := String.intercalate "\n" [
  "",
  "You are a buy-side equity research analyst assistant. Your job is to create a **strictly factual**,",
  "structured summary of an earnings call transcript or management commentary.",
  "",
  "Rules:",
  "- **Never hallucinate or invent numbers, guidance, or initiatives.**",
  "- Only use information explicitly present in the transcript text provided.",
  "- If a field is missing, vague, or not clearly stated, mark it as **null** (for strings) or an **empty array** (for lists).",
  "- When in doubt, be conservative and prefer \"not discussed\" / null over guessing.",
  "- Capture short **supporting direct quotes** where possible, but never fabricate quotes.",
  "",
  "Tone assessment:",
  "- \"optimistic\": management is clearly positive on outlook/trajectory.",
  "- \"cautious\": mixed but leaning careful/guarded.",
  "- \"neutral\": largely descriptive, little explicit positive or negative tone.",
  "- \"pessimistic\": clearly negative, focused on headwinds.",
  "",
  "Confidence:",
  "- \"high\": transcript has explicit guidance and multiple concrete data points.",
  "- \"medium\": some guidance but with qualifiers or limited detail.",
  "- \"low\": vague language, limited data, or very partial transcript.",
  "",
  "Forward guidance:",
  "- Summarize **only** what they explicitly guide on (revenue, margins, capex, and other specifics).",
  "- Avoid adding your own projections.",
  "",
  "Capacity utilization:",
  "- Only summarize if there is explicit discussion of utilization, load factors, occupancy, or similar metrics.",
  "",
  "Growth initiatives:",
  "- Capture 2–3 **distinct** new or emphasized growth initiatives (products, geographies, channels, capex projects, etc.).",
  "- If none are clearly articulated, return an empty array.",
  "",
  "Output format:",
  "Return **valid JSON** that matches this TypeScript type shape exactly:",
  "",
  "type Tone = \"optimistic\" | \"cautious\" | \"neutral\" | \"pessimistic\" | \"unknown\";",
  "type Confidence = \"high\" | \"medium\" | \"low\" | \"unknown\";",
  "",
  "type BulletPoint = \x7b",
  "  summary: string;",
  "  supporting_quote?: string | null;",
  "\x7d;",
  "",
  "type ForwardGuidance = \x7b",
  "  revenue?: string | null;",
  "  margin?: string | null;",
  "  capex?: string | null;",
  "  other?: string | null;",
  "\x7d;",
  "",
  "type EarningsSummary = \x7b",
  "  tone: Tone;",
  "  confidence: Confidence;",
  "  tone_rationale: string | null;",
  "  key_positives: BulletPoint[];",
  "  key_concerns: BulletPoint[];",
  "  forward_guidance: ForwardGuidance;",
  "  capacity_utilization: string | null;",
  "  growth_initiatives: BulletPoint[];",
  "  raw_notes?: string | null;",
  "\x7d;",
  "",
  "If something is missing or ambiguous, use:",
  "- \"unknown\" for tone or confidence, or",
  "- null / [] as appropriate for other fields.",
  "",
  "Respond with **JSON only**, with no surrounding explanation text.",
  ""]

/-- The nullable-string schema entry `{ type: ["string", "null"] }`. -/
def nullableStringSchema : Json :=
  Json.obj [("type", Json.arr [Json.str "string", Json.str "null"])]

/-- The bullet-point array schema entry shared by `key_positives`,
`key_concerns` and `growth_initiatives` (schema lines 121-133 etc.). -/
def bulletArraySchema : Json :=
  Json.obj [
    ("type", Json.str "array"),
    ("items", Json.obj [
      ("type", Json.str "object"),
      ("additionalProperties", Json.bool false),
      ("properties", Json.obj [
        ("summary", Json.obj [("type", Json.str "string")]),
        ("supporting_quote", nullableStringSchema)]),
      ("required", Json.arr [Json.str "summary"]),
      ("nullable", Json.bool false)])]

/-- The `required` key list of `EARNINGS_SUMMARY_SCHEMA` (lines 177-186). -/
def requiredKeys : List String :=
  ["tone", "confidence", "tone_rationale", "key_positives", "key_concerns",
   "forward_guidance", "capacity_utilization", "growth_initiatives"]

/-- `EARNINGS_SUMMARY_SCHEMA` (lines 106-187): the response schema passed
verbatim in the model-call config; every `Env.modelCall` is understood as
already specialized to this constant configuration. -/
def EARNINGS_SUMMARY_SCHEMA : Json :=
  Json.obj [
    ("type", Json.str "object"),
    ("additionalProperties", Json.bool false),
    ("properties", Json.obj [
      ("tone", Json.obj [
        ("type", Json.str "string"),
        ("enum", Json.arr [Json.str "optimistic", Json.str "cautious",
          Json.str "neutral", Json.str "pessimistic", Json.str "unknown"])]),
      ("confidence", Json.obj [
        ("type", Json.str "string"),
        ("enum", Json.arr [Json.str "high", Json.str "medium",
          Json.str "low", Json.str "unknown"])]),
      ("tone_rationale", nullableStringSchema),
      ("key_positives", bulletArraySchema),
      ("key_concerns", bulletArraySchema),
      ("forward_guidance", Json.obj [
        ("type", Json.str "object"),
        ("additionalProperties", Json.bool false),
        ("properties", Json.obj [
          ("revenue", nullableStringSchema),
          ("margin", nullableStringSchema),
          ("capex", nullableStringSchema),
          ("other", nullableStringSchema)])]),
      ("capacity_utilization", nullableStringSchema),
      ("growth_initiatives", bulletArraySchema),
      ("raw_notes", nullableStringSchema)]),
    ("required", Json.arr (requiredKeys.map Json.str))]

/-- The `contents` array built in `summarizeEarningsCall` (lines 231-238):
one user part with system prompt + context, plus, when present, a second
user entry carrying the inline binary attachment. -/
def buildContents (promptContext : String) (imgData : Option InlineData) : List Content :=
  let base : List Content :=
    [{ role := "user", parts := [MsgPart.text (SYSTEM_PROMPT ++ "\n\n" ++ promptContext)] }]
  match imgData with
  | none => base
  | some d => base ++ [{ role := "user", parts := [MsgPart.inlineData d] }]

/-- `summarizeEarningsCall` (lines 218-257): require the API key, issue a
single model call, require a nonempty text payload, and return the result
of `JSON.parse` on it unchanged. -/
def summarizeEarningsCall (env : Env) (promptContext : String)
    (imgData : Option InlineData) : Except String Json :=
  match env.apiKey with
  | none => .error configMissingMsg
  | some _ =>
    match env.modelCall (buildContents promptContext imgData) with
    | .error e => .error e
    | .ok jsonTextOpt =>
      let jsonText := jsonTextOpt.getD ""
      if jsonText = "" then
        .error noTextMsg
      else
        match env.parseJson jsonText with
        | none => .error jsonParseFailMsg
        | some j => .ok j

/-- An HTTP response: a status code and a JSON body. -/
structure HttpResponse where
  status : Nat
  body : Json

/-- `NextResponse.json({ error }, { status })`: the uniform failure shape. -/
def errorResponse (status : Nat) (msg : String) : HttpResponse :=
  { status := status, body := Json.obj [("error", Json.str msg)] }

/-- Turning a `summarizeEarningsCall` outcome into the route's response:
success becomes a 200 with the summary as body; a thrown error reaches
the catch-all at lines 310-320 and becomes a 500 with the error message. -/
def respond (r : Except String Json) : HttpResponse :=
  match r with
  | .ok j => { status := 200, body := j }
  | .error m => errorResponse 500 m

/-- Message for an unsupported tool selector (line 267). -/
def unsupportedToolMsg : String :=
  "Unsupported tool. Only \x27earnings_summary\x27 is implemented."

/-- Message for a missing file (line 274). -/
def noFileMsg : String := "No file provided. Please attach a document."

/-- The fixed instruction sent on the scanned/Vision path (line 293). -/
def scannedUserPrompt : String :=
  "Please analyze the attached PDF document. It appears to be a scanned transcript."

/-- The scanned-PDF branch of `POST` (lines 288-297): base64-encode the
original buffer and call the model with the fixed instruction plus an
inline attachment whose MIME type is the literal `"application/pdf"`. -/
def scannedBranch (env : Env) (buffer : List Nat) : HttpResponse :=
  let base64Data := env.base64 buffer
  respond (summarizeEarningsCall env scannedUserPrompt
    (some { mimeType := "application/pdf", data := base64Data }))

/-- `text.slice(0, MAX_CHARS)` (line 301): the prefix of at most
`MAX_CHARS` characters. -/
def sliceMaxChars (text : String) : String := ⟨text.data.take MAX_CHARS⟩

/-- The user prompt of the text path (lines 302-306). -/
def textUserPrompt (trimmedText : String) : String :=
  "\nTranscript text (may be truncated for length):\n\n\"\"\"" ++ trimmedText ++ "\"\"\"\n"

/-- The text-based branch of `POST` (lines 299-308): truncate, wrap in the
transcript prompt, and call the model with no attachment. -/
def textBranch (env : Env) (text : String) : HttpResponse :=
  respond (summarizeEarningsCall env (textUserPrompt (sliceMaxChars text)) none)

/-- The scanned-PDF heuristic (lines 285-286):
`isPdf && (!text || text.trim().length < 500)`. -/
def isScanned (f : UploadedFile) (text : String) : Bool :=
  isPdfFile f && (text == "" || (jsTrim text).length < 500)

/-- `POST` (lines 259-321): validate the tool selector and file, extract
text, branch on the scanned heuristic, and answer; any thrown error is
caught and becomes a 500 response carrying the error message. -/
def POST (env : Env) (tool : Option String) (file : Option UploadedFile) : HttpResponse :=
  if tool != some "earnings_summary" then
    errorResponse 400 unsupportedToolMsg
  else
    match file with
    | none => errorResponse 400 noFileMsg
    | some f =>
      match extractTextFromFile env f with
      | .error m => errorResponse 500 m
      | .ok er =>
        if isScanned f er.text then
          scannedBranch env er.buffer
        else
          textBranch env er.text

/-! ## Observation helpers and derived forms -/

/-- Whether a JSON object carries a top-level key. Observation function
used to state the spec's required-key property about response bodies. -/
def jsonHasKey (j : Json) (k : String) : Bool :=
  match j with
  | Json.obj kvs => kvs.any (fun kv => kv.fst == k)
  | _ => false

/-- The inline-data payloads of a `contents` array, in order. -/
def inlineDatas (cs : List Content) : List InlineData :=
  (cs.map (fun c => c.parts.filterMap (fun p =>
    match p with
    | MsgPart.inlineData d => some d
    | _ => none))).flatten

/-- The MIME type of the first inline attachment of a `contents` array
("NONE" when there is no attachment). -/
def firstInlineMime (cs : List Content) : String :=
  match inlineDatas cs with
  | [] => "NONE"
  | d :: _ => d.mimeType

/-- The text computed by `extractTextFromFile` below the size cap:
the PDF branch yields the parse result (empty on a caught parse failure),
the other branch the UTF-8 decoding. -/
def extractedText (env : Env) (f : UploadedFile) : String :=
  if isPdfFile f then (env.pdfParse f.bytes).getD "" else env.utf8Decode f.bytes

/-! ## Concrete inputs used by witnesses and counterexamples -/

/-- An environment in which every host primitive is inert. -/
def envNull : Env :=
  { apiKey := none,
    pdfParse := fun _ => none,
    utf8Decode := fun _ => "",
    base64 := fun _ => "",
    modelCall := fun _ => .error "down",
    parseJson := fun _ => none }

/-- An upload one byte over the 20 MB server cap. -/
def hugeFile : UploadedFile :=
  { name := "big.pdf", type := "application/pdf",
    bytes := List.replicate (MAX_FILE_BYTES + 1) 0 }

/-- A string one character over the 40,000-character budget. -/
def longString : String := ⟨List.replicate (MAX_CHARS + 1) 'a'⟩

/-- A 50-byte plain-text upload, as in the spec's scenario. -/
def smallTxtFile : UploadedFile :=
  { name := "notes.txt", type := "text/plain", bytes := List.replicate 50 97 }

/-- An environment whose UTF-8 decoder answers a fixed transcript. -/
def envTxt : Env :=
  { envNull with utf8Decode := fun _ => "fifty characters of commentary" }

/-- A small PDF upload whose parse will fail. -/
def brokenPdfFile : UploadedFile :=
  { name := "scan.pdf", type := "application/pdf", bytes := [37, 80, 68, 70] }

/-- An extracted text of exactly 500 characters (499 letters followed by
one space) whose trimmed length is 499. -/
def paddedText : String := ⟨List.replicate 499 'a' ++ [' ']⟩

/-- A well-typed PDF upload below the size cap. -/
def paddedPdfFile : UploadedFile :=
  { name := "report.pdf", type := "application/pdf", bytes := [1] }

/-- An environment whose PDF parser extracts `paddedText` and whose model
call records which request shape it received: two content entries (the
binary-attachment path) answer "BINARY", one entry (the text path)
answers "TEXT". -/
def envPadded : Env :=
  { apiKey := some "key",
    pdfParse := fun _ => some paddedText,
    utf8Decode := fun _ => "",
    base64 := fun _ => "b64",
    modelCall := fun cs => .error (if cs.length == 2 then "BINARY" else "TEXT"),
    parseJson := fun _ => none }

/-- A PDF upload below the cap for the amended-claim witness. -/
def shortPdfFile : UploadedFile :=
  { name := "short.pdf", type := "application/pdf", bytes := [2] }

/-- An environment whose PDF parser extracts the 5-character text
"short". -/
def envShortPdf : Env :=
  { envNull with pdfParse := fun _ => some "short" }

/-- The model payload of the spec's scenario: `{"tone":"optimistic"}`. -/
def toneOnlyText : String := "\x7b\"tone\":\"optimistic\"\x7d"

/-- The value `JSON.parse` produces for `toneOnlyText`. -/
def toneOnlyJson : Json := Json.obj [("tone", Json.str "optimistic")]

/-- A small plain-text upload for the C1 scenario. -/
def toneOnlyFile : UploadedFile :=
  { name := "call.txt", type := "text/plain", bytes := [104, 105] }

/-- An environment whose model answers exactly `{"tone":"optimistic"}`
and whose `JSON.parse` behaves accordingly on that payload. -/
def envToneOnly : Env :=
  { apiKey := some "key",
    pdfParse := fun _ => none,
    utf8Decode := fun _ => "management commentary",
    base64 := fun _ => "",
    modelCall := fun _ => .ok (some toneOnlyText),
    parseJson := fun s => if s = toneOnlyText then some toneOnlyJson else none }

/-- An upload declaring MIME type "text/plain" but named with a ".pdf"
suffix, so the PDF classifier fires while the declared type differs from
"application/pdf". -/
def mislabeledPdfFile : UploadedFile :=
  { name := "scan.pdf", type := "text/plain", bytes := [9] }

/-- An environment whose PDF parser throws and whose model call reports
back the MIME type of the first inline attachment it received. -/
def envMimeProbe : Env :=
  { apiKey := some "key",
    pdfParse := fun _ => none,
    utf8Decode := fun _ => "",
    base64 := fun _ => "CQ==",
    modelCall := fun cs => .error (firstInlineMime cs),
    parseJson := fun _ => none }

/-- A PDF upload whose parse yields no text, for the C4 witness. -/
def emptyParsePdfFile : UploadedFile :=
  { name := "w.pdf", type := "application/pdf", bytes := [3] }

/-- An environment whose PDF parser answers the empty string. -/
def envEmptyParse : Env :=
  { envNull with pdfParse := fun _ => some "" }

/-- An upload with an upper-case ".PDF" suffix and a non-PDF declared
type, below the size cap. -/
def upperPdfFile : UploadedFile :=
  { name := "REPORT.PDF", type := "application/octet-stream", bytes := [5] }


theorem length_dropWhile_le {α : Type} (p : α → Bool) (l : List α) :
    (l.dropWhile p).length ≤ l.length := by
  induction l with
  | nil => simp [List.dropWhile]
  | cons a l ih =>
    rw [List.dropWhile_cons]
    split
    · exact Nat.le_succ_of_le ih
    · exact Nat.le_refl _

/-- Trimming never lengthens a string. -/
theorem jsTrim_length_le (s : String) : (jsTrim s).length ≤ s.length := by
  show ((((s.data.dropWhile Char.isWhitespace).reverse.dropWhile
    Char.isWhitespace).reverse : List Char)).length ≤ s.data.length
  rw [List.length_reverse]
  calc ((s.data.dropWhile Char.isWhitespace).reverse.dropWhile Char.isWhitespace).length
      ≤ (s.data.dropWhile Char.isWhitespace).reverse.length :=
        length_dropWhile_le _ _
    _ = (s.data.dropWhile Char.isWhitespace).length := List.length_reverse _
    _ ≤ s.data.length := length_dropWhile_le _ _

/-- Below the size cap, extraction succeeds with `extractedText` and the
original bytes. -/
theorem extractTextFromFile_ok (env : Env) (f : UploadedFile)
    (hsize : f.bytes.length ≤ MAX_FILE_BYTES) :
    extractTextFromFile env f = .ok ⟨extractedText env f, f.bytes⟩ := by
  unfold extractTextFromFile extractedText
  rw [if_neg (by omega)]
  cases hb : isPdfFile f
  · rfl
  · cases env.pdfParse f.bytes <;> rfl

/-- `POST` with a missing file answers the 400 no-file response. -/
theorem POST_noFile (env : Env) :
    POST env (some "earnings_summary") none = errorResponse 400 noFileMsg := by
  unfold POST
  rfl

/-- `POST` with the correct tool selector and a file, unfolded one step. -/
theorem POST_some (env : Env) (f : UploadedFile) :
    POST env (some "earnings_summary") (some f) =
      match extractTextFromFile env f with
      | .error m => errorResponse 500 m
      | .ok er =>
        if isScanned f er.text then scannedBranch env er.buffer
        else textBranch env er.text := by
  unfold POST
  rfl

/-- Below the size cap and with the correct tool selector, `POST` reduces
to the scanned-vs-text branch decision on the extracted text. -/
theorem POST_ok (env : Env) (f : UploadedFile)
    (hsize : f.bytes.length ≤ MAX_FILE_BYTES) :
    POST env (some "earnings_summary") (some f) =
      if isScanned f (extractedText env f) then scannedBranch env f.bytes
      else textBranch env (extractedText env f) := by
  rw [POST_some, extractTextFromFile_ok env f hsize]

/-- Above the size cap, `POST` is a constant: the 500 response carrying
the oversize message, independent of every host primitive in `env`. -/
theorem POST_oversize (env : Env) (f : UploadedFile)
    (h : MAX_FILE_BYTES < f.bytes.length) :
    POST env (some "earnings_summary") (some f) = errorResponse 500 tooLargeMsg := by
  have hex : extractTextFromFile env f = .error tooLargeMsg := by
    unfold extractTextFromFile
    rw [if_pos h]
  rw [POST_some, hex]

/-- Every route answer built from a model-call outcome is either a 200
with the parsed body or a 500 with a single error message. -/
theorem respond_cases (r : Except String Json) :
    (∃ j, respond r = { status := 200, body := j }) ∨
    (∃ m, respond r = errorResponse 500 m) := by
  cases r with
  | ok j => exact Or.inl ⟨j, rfl⟩
  | error m => exact Or.inr ⟨m, rfl⟩

/-- For a PDF-classified file, the scanned heuristic is exactly the
trimmed-length test (an empty text trims to length 0). -/
theorem isScanned_eq_trim (f : UploadedFile) (t : String)
    (hpdf : isPdfFile f = true) :
    isScanned f t = decide ((jsTrim t).length < 500) := by
  unfold isScanned
  rw [hpdf, Bool.true_and]
  by_cases h : t = ""
  · subst h
    rfl
  · rw [beq_eq_false_iff_ne.mpr h, Bool.false_or]

/-! ## C5 -/

/-- C5: for every upload whose byte length exceeds the 20 MB server cap,
the request terminates with the payload-too-large failure. The result is
a constant independent of the universally quantified `env`, so neither
the extraction primitives (`pdfParse`, `utf8Decode`) nor `modelCall` are
ever consulted. -/
theorem oversize_upload_short_circuits (env : Env) (f : UploadedFile)
    (h : MAX_FILE_BYTES < f.bytes.length) :
    POST env (some "earnings_summary") (some f) = errorResponse 500 tooLargeMsg :=
  POST_oversize env f h

theorem oversize_upload_short_circuits_witness :
    MAX_FILE_BYTES < hugeFile.bytes.length ∧
    POST envNull (some "earnings_summary") (some hugeFile) =
      errorResponse 500 tooLargeMsg := by
  have h : MAX_FILE_BYTES < hugeFile.bytes.length := by
    simp [hugeFile]
  exact ⟨h, oversize_upload_short_circuits envNull hugeFile h⟩

/-! ## C7 -/

/-- C7: the text-path truncation is idempotent and prefix-preserving:
it fixes strings of length at most 40,000, always returns a prefix, and
cuts longer strings to exactly the first 40,000 characters. -/
theorem truncation_takes_initial_segment (s : String) :
    sliceMaxChars (sliceMaxChars s) = sliceMaxChars s ∧
    List.IsPrefix (sliceMaxChars s).data s.data ∧
    (s.length ≤ MAX_CHARS → sliceMaxChars s = s) ∧
    (MAX_CHARS ≤ s.length → (sliceMaxChars s).length = MAX_CHARS ∧
      (sliceMaxChars s).data = s.data.take MAX_CHARS) := by
  refine ⟨?_, ?_, ?_, ?_⟩
  · show (⟨(s.data.take MAX_CHARS).take MAX_CHARS⟩ : String) = ⟨s.data.take MAX_CHARS⟩
    rw [List.take_take, Nat.min_self]
  · exact List.take_prefix _ _
  · intro h
    show (⟨s.data.take MAX_CHARS⟩ : String) = s
    rw [List.take_of_length_le h]
  · intro h
    refine ⟨?_, rfl⟩
    show (s.data.take MAX_CHARS).length = MAX_CHARS
    rw [List.length_take]
    exact Nat.min_eq_left h

theorem truncation_takes_initial_segment_witness :
    sliceMaxChars "abc" = "abc" ∧ (sliceMaxChars longString).length = MAX_CHARS := by
  refine ⟨(truncation_takes_initial_segment "abc").2.2.1 (by decide), ?_⟩
  have h : MAX_CHARS ≤ longString.length := by
    show MAX_CHARS ≤ (List.replicate (MAX_CHARS + 1) 'a').length
    rw [List.length_replicate]
    exact Nat.le_succ _
  exact ((truncation_takes_initial_segment longString).2.2.2 h).1

/-! ## C9 -/

/-- C9: when the API credential is absent, the model-call step fails with
the configuration-missing message (and the whole request, past input
validation, answers 500 with that message). The outcome is a constant
independent of `env.modelCall`, so no network call is consulted. -/
theorem missing_api_key_fails_first (env : Env) (h : env.apiKey = none) :
    (∀ promptContext imgData,
      summarizeEarningsCall env promptContext imgData = .error configMissingMsg) ∧
    (∀ f : UploadedFile, f.bytes.length ≤ MAX_FILE_BYTES →
      POST env (some "earnings_summary") (some f) =
        errorResponse 500 configMissingMsg) := by
  have hsum : ∀ promptContext imgData,
      summarizeEarningsCall env promptContext imgData = .error configMissingMsg := by
    intro promptContext imgData
    unfold summarizeEarningsCall
    rw [h]
  refine ⟨hsum, fun f hsize => ?_⟩
  rw [POST_ok env f hsize]
  by_cases hs : isScanned f (extractedText env f)
  · rw [if_pos hs]
    simp only [scannedBranch, hsum]
    rfl
  · rw [if_neg hs]
    simp only [textBranch, hsum]
    rfl

theorem missing_api_key_fails_first_witness :
    summarizeEarningsCall envNull "ctx" none = .error configMissingMsg ∧
    POST envNull (some "earnings_summary") (some smallTxtFile) =
      errorResponse 500 configMissingMsg := by
  have h := missing_api_key_fails_first envNull rfl
  exact ⟨h.1 "ctx" none, h.2 smallTxtFile (by simp [smallTxtFile, MAX_FILE_BYTES])⟩

/-! ## C6 -/

/-- C6: a file not classified as PDF always takes the text path, and its
extracted content is exactly the UTF-8 decoding of the uploaded bytes
(the binary fallback is impossible because the scanned heuristic is
conjoined with the PDF test). -/
theorem non_pdf_always_text_path (env : Env) (f : UploadedFile)
    (hpdf : isPdfFile f = false) (hsize : f.bytes.length ≤ MAX_FILE_BYTES) :
    extractTextFromFile env f = .ok ⟨env.utf8Decode f.bytes, f.bytes⟩ ∧
    POST env (some "earnings_summary") (some f) =
      textBranch env (env.utf8Decode f.bytes) := by
  have hex : extractedText env f = env.utf8Decode f.bytes := by
    unfold extractedText
    rw [hpdf]
    rfl
  refine ⟨?_, ?_⟩
  · rw [extractTextFromFile_ok env f hsize, hex]
  · rw [POST_ok env f hsize, hex, if_neg ?_]
    unfold isScanned
    rw [hpdf, Bool.false_and]
    simp

theorem non_pdf_always_text_path_witness :
    extractTextFromFile envTxt smallTxtFile =
      .ok ⟨"fifty characters of commentary", smallTxtFile.bytes⟩ ∧
    POST envTxt (some "earnings_summary") (some smallTxtFile) =
      textBranch envTxt "fifty characters of commentary" := by
  have h := non_pdf_always_text_path envTxt smallTxtFile (by decide)
    (by simp [smallTxtFile, MAX_FILE_BYTES])
  exact h

/-! ## C8 -/

/-- C8: when PDF parsing throws for a PDF-classified upload (below the
size cap), extraction degrades to an empty text instead of failing, and
the pipeline continues into the scanned/binary fallback branch. -/
theorem pdf_parse_failure_degrades (env : Env) (f : UploadedFile)
    (hpdf : isPdfFile f = true) (hsize : f.bytes.length ≤ MAX_FILE_BYTES)
    (hfail : env.pdfParse f.bytes = none) :
    extractTextFromFile env f = .ok ⟨"", f.bytes⟩ ∧
    POST env (some "earnings_summary") (some f) = scannedBranch env f.bytes := by
  have hex : extractedText env f = "" := by
    unfold extractedText
    rw [hpdf, hfail]
    rfl
  refine ⟨?_, ?_⟩
  · rw [extractTextFromFile_ok env f hsize, hex]
  · rw [POST_ok env f hsize, hex, if_pos ?_]
    unfold isScanned
    rw [hpdf]
    rfl

theorem pdf_parse_failure_degrades_witness :
    extractTextFromFile envNull brokenPdfFile = .ok ⟨"", brokenPdfFile.bytes⟩ ∧
    POST envNull (some "earnings_summary") (some brokenPdfFile) =
      scannedBranch envNull brokenPdfFile.bytes :=
  pdf_parse_failure_degrades envNull brokenPdfFile (by decide) (by decide) rfl

/-! ## C2 -/

set_option maxRecDepth 8000 in
/-- C2 counterexample: a PDF whose extracted text length is 500 (≥ 500)
nevertheless takes the binary path, because the code thresholds the
trimmed length (499 here), not the extracted length. -/
theorem scanned_threshold_counterexample :
    500 ≤ paddedText.length ∧
    POST envPadded (some "earnings_summary") (some paddedPdfFile) =
      errorResponse 500 "BINARY" := by
  constructor
  · show 500 ≤ (List.replicate 499 'a' ++ [' ']).length
    rw [List.length_append, List.length_replicate]
    decide
  · rfl

/-- C2 amended: for a PDF-classified upload below the size cap whose
extraction yields text `t`, the pipeline takes the binary path exactly
when the whitespace-trimmed length of `t` is below 500, and the text
path otherwise. -/
theorem scanned_threshold_uses_trimmed_length (env : Env) (f : UploadedFile)
    (t : String) (hpdf : isPdfFile f = true)
    (hsize : f.bytes.length ≤ MAX_FILE_BYTES)
    (hparse : env.pdfParse f.bytes = some t) :
    POST env (some "earnings_summary") (some f) =
      if (jsTrim t).length < 500 then scannedBranch env f.bytes
      else textBranch env t := by
  have hex : extractedText env f = t := by
    unfold extractedText
    rw [hpdf, hparse]
    rfl
  rw [POST_ok env f hsize, hex, isScanned_eq_trim f t hpdf]
  by_cases h : (jsTrim t).length < 500
  · rw [if_pos (by simpa using h), if_pos h]
  · rw [if_neg (by simpa using h), if_neg h]

theorem scanned_threshold_uses_trimmed_length_witness :
    POST envShortPdf (some "earnings_summary") (some shortPdfFile) =
      if (jsTrim "short").length < 500 then scannedBranch envShortPdf shortPdfFile.bytes
      else textBranch envShortPdf "short" :=
  scanned_threshold_uses_trimmed_length envShortPdf shortPdfFile "short"
    (by decide) (by decide) rfl

/-! ## C1 -/

/-- C1 counterexample: when the model payload is `{"tone":"optimistic"}`
alone, the final response body is exactly that one-key object — no
`confidence: "unknown"`, no empty lists, no null scalars — so the
response does not contain every required key of the schema contract. -/
theorem no_normalization_counterexample :
    POST envToneOnly (some "earnings_summary") (some toneOnlyFile) =
      { status := 200, body := toneOnlyJson } ∧
    jsonHasKey toneOnlyJson "confidence" = false ∧
    requiredKeys.all (fun k => jsonHasKey toneOnlyJson k) = false := by
  refine ⟨rfl, rfl, rfl⟩

/-- C1 amended: the route performs no normalization at all — whenever the
credential is present, the model call succeeds with a nonempty payload,
and `JSON.parse` succeeds, `summarizeEarningsCall` returns the parsed
object verbatim, with no field substituted or defaulted; required-key
conformance is delegated entirely to the upstream response schema. -/
theorem model_payload_passthrough (env : Env) (promptContext : String)
    (imgData : Option InlineData) (k s : String) (j : Json)
    (hkey : env.apiKey = some k)
    (hcall : env.modelCall (buildContents promptContext imgData) = .ok (some s))
    (hne : s ≠ "")
    (hparse : env.parseJson s = some j) :
    summarizeEarningsCall env promptContext imgData = .ok j := by
  unfold summarizeEarningsCall
  rw [hkey, hcall]
  show (if s = "" then _ else _) = _
  rw [if_neg hne]
  simp only [Option.getD_some, hparse]

theorem model_payload_passthrough_witness :
    summarizeEarningsCall envToneOnly "any context" none = .ok toneOnlyJson :=
  model_payload_passthrough envToneOnly "any context" none "key" toneOnlyText
    toneOnlyJson rfl rfl (by decide) rfl

/-! ## C3 -/

/-- Every `POST` outcome is either a 200 carrying the model's parsed body
or a failure response with status 400 or 500 built by `errorResponse`. -/
theorem POST_shape (env : Env) (tool : Option String) (file : Option UploadedFile) :
    (∃ j, POST env tool file = { status := 200, body := j }) ∨
    (∃ s m, (s = 400 ∨ s = 500) ∧ POST env tool file = errorResponse s m) := by
  by_cases ht : tool = some "earnings_summary"
  · subst ht
    cases file with
    | none => exact Or.inr ⟨400, noFileMsg, Or.inl rfl, POST_noFile env⟩
    | some f =>
      rw [POST_some env f]
      cases hex : extractTextFromFile env f with
      | error m => exact Or.inr ⟨500, m, Or.inr rfl, rfl⟩
      | ok er =>
        dsimp only
        by_cases hs : isScanned f er.text
        · rw [if_pos hs]
          simp only [scannedBranch]
          rcases respond_cases (summarizeEarningsCall env scannedUserPrompt
            (some { mimeType := "application/pdf", data := env.base64 er.buffer }))
            with ⟨j, h⟩ | ⟨m, h⟩
          · exact Or.inl ⟨j, h⟩
          · exact Or.inr ⟨500, m, Or.inr rfl, h⟩
        · rw [if_neg hs]
          simp only [textBranch]
          rcases respond_cases (summarizeEarningsCall env
            (textUserPrompt (sliceMaxChars er.text)) none) with ⟨j, h⟩ | ⟨m, h⟩
          · exact Or.inl ⟨j, h⟩
          · exact Or.inr ⟨500, m, Or.inr rfl, h⟩
  · refine Or.inr ⟨400, unsupportedToolMsg, Or.inl rfl, ?_⟩
    unfold POST
    rw [if_pos (by simpa [bne_iff_ne] using ht)]

/-- C3 counterexample: an upload over the 20 MB server cap is answered
with status 500, not a 400-class status, because the oversize error is
thrown inside extraction and lands in the route's generic catch. -/
theorem oversize_status_counterexample :
    POST envNull (some "earnings_summary") (some hugeFile) =
      errorResponse 500 tooLargeMsg ∧
    ¬(400 ≤ (POST envNull (some "earnings_summary") (some hugeFile)).status ∧
      (POST envNull (some "earnings_summary") (some hugeFile)).status < 500) := by
  have h : MAX_FILE_BYTES < hugeFile.bytes.length := by
    simp [hugeFile]
  have he := POST_oversize envNull hugeFile h
  refine ⟨he, ?_⟩
  rw [he]
  intro hcontra
  exact absurd hcontra.2 (by decide)

/-- C3 amended: the tool-selector and missing-file failures return 400;
the payload-over-cap failure, like the configuration, upstream, parse and
unexpected failures, returns 500 (it is thrown inside extraction and
caught by the generic handler); and every failure body is a JSON object
with a single `error` string field. -/
theorem failure_status_classes (env : Env) (tool : Option String)
    (file : Option UploadedFile) :
    ((POST env tool file).status = 200 ∨
      (((POST env tool file).status = 400 ∨ (POST env tool file).status = 500) ∧
        ∃ m, (POST env tool file).body = Json.obj [("error", Json.str m)])) ∧
    (tool ≠ some "earnings_summary" →
      POST env tool file = errorResponse 400 unsupportedToolMsg) ∧
    (tool = some "earnings_summary" → file = none →
      POST env tool file = errorResponse 400 noFileMsg) ∧
    (∀ f, tool = some "earnings_summary" → file = some f →
      MAX_FILE_BYTES < f.bytes.length →
      POST env tool file = errorResponse 500 tooLargeMsg) ∧
    (∀ f, tool = some "earnings_summary" → file = some f →
      f.bytes.length ≤ MAX_FILE_BYTES →
      ((POST env tool file).status = 200 ∨ (POST env tool file).status = 500)) := by
  refine ⟨?_, ?_, ?_, ?_, ?_⟩
  · rcases POST_shape env tool file with ⟨j, h⟩ | ⟨s, m, hs, h⟩
    · exact Or.inl (by rw [h])
    · refine Or.inr ⟨?_, m, by rw [h]; rfl⟩
      rcases hs with hs | hs <;> subst hs
      · exact Or.inl (by rw [h]; rfl)
      · exact Or.inr (by rw [h]; rfl)
  · intro hne
    unfold POST
    rw [if_pos (by simpa [bne_iff_ne] using hne)]
  · intro ht hf
    subst ht
    subst hf
    exact POST_noFile env
  · intro f ht hf hover
    subst ht
    subst hf
    exact POST_oversize env f hover
  · intro f ht hf hsize
    subst ht
    subst hf
    rw [POST_ok env f hsize]
    by_cases hs : isScanned f (extractedText env f)
    · rw [if_pos hs]
      unfold scannedBranch
      rcases respond_cases (summarizeEarningsCall env scannedUserPrompt
        (some { mimeType := "application/pdf", data := env.base64 f.bytes }))
        with ⟨j, h⟩ | ⟨m, h⟩
      · exact Or.inl (by rw [h])
      · exact Or.inr (by rw [h]; rfl)
    · rw [if_neg hs]
      unfold textBranch
      rcases respond_cases (summarizeEarningsCall env
        (textUserPrompt (sliceMaxChars (extractedText env f))) none)
        with ⟨j, h⟩ | ⟨m, h⟩
      · exact Or.inl (by rw [h])
      · exact Or.inr (by rw [h]; rfl)

theorem failure_status_classes_witness :
    POST envNull (some "other_tool") none = errorResponse 400 unsupportedToolMsg ∧
    POST envNull (some "earnings_summary") none = errorResponse 400 noFileMsg ∧
    POST envNull (some "earnings_summary") (some hugeFile) =
      errorResponse 500 tooLargeMsg ∧
    ((POST envNull (some "earnings_summary") (some smallTxtFile)).status = 200 ∨
      (POST envNull (some "earnings_summary") (some smallTxtFile)).status = 500) := by
  refine ⟨?_, ?_, ?_, ?_⟩
  · exact (failure_status_classes envNull (some "other_tool") none).2.1 (by decide)
  · exact (failure_status_classes envNull (some "earnings_summary") none).2.2.1 rfl rfl
  · exact (failure_status_classes envNull (some "earnings_summary")
      (some hugeFile)).2.2.2.1 hugeFile rfl rfl (by simp [hugeFile])
  · exact (failure_status_classes envNull (some "earnings_summary")
      (some smallTxtFile)).2.2.2.2 smallTxtFile rfl rfl
      (by simp [smallTxtFile, MAX_FILE_BYTES])

/-! ## C4 -/

/-- C4 counterexample: for an upload whose declared media type is
"text/plain", the binary payload reaching the model carries MIME type
"application/pdf", not the document's declared media type. -/
theorem binary_mime_counterexample :
    mislabeledPdfFile.type = "text/plain" ∧
    POST envMimeProbe (some "earnings_summary") (some mislabeledPdfFile) =
      errorResponse 500 "application/pdf" := by
  exact ⟨rfl, rfl⟩

/-- C4 amended: when the scanned heuristic fires, the model call carries
the fixed MIME type "application/pdf" (not the declared one) together
with the base64 encoding of the original uploaded bytes, as the sole
inline attachment of the submitted contents. -/
theorem binary_payload_fixed_mime (env : Env) (f : UploadedFile)
    (er : ExtractResult) (hex : extractTextFromFile env f = .ok er)
    (hs : isScanned f er.text = true) :
    POST env (some "earnings_summary") (some f) =
      respond (summarizeEarningsCall env scannedUserPrompt
        (some { mimeType := "application/pdf", data := env.base64 f.bytes })) ∧
    inlineDatas (buildContents scannedUserPrompt
        (some { mimeType := "application/pdf", data := env.base64 f.bytes })) =
      [{ mimeType := "application/pdf", data := env.base64 f.bytes }] := by
  have hbuf : er.buffer = f.bytes := by
    unfold extractTextFromFile at hex
    split at hex
    · exact absurd hex (by simp)
    · simp only [Except.ok.injEq] at hex
      rw [← hex]
  refine ⟨?_, rfl⟩
  rw [POST_some env f, hex]
  dsimp only
  rw [if_pos hs, hbuf]
  rfl

theorem binary_payload_fixed_mime_witness :
    POST envEmptyParse (some "earnings_summary") (some emptyParsePdfFile) =
      respond (summarizeEarningsCall envEmptyParse scannedUserPrompt
        (some { mimeType := "application/pdf",
                data := envEmptyParse.base64 emptyParsePdfFile.bytes })) :=
  (binary_payload_fixed_mime envEmptyParse emptyParsePdfFile
    ⟨"", [3]⟩ rfl (by decide)).1

/-! ## C10 -/

/-- C10: a file whose name ends in ".pdf" case-insensitively is classified
as PDF regardless of its declared MIME type, so its bytes are never
decoded as UTF-8 (the extraction result below depends only on the PDF
parser); and when parsing fails or yields text under 500 characters, the
request is routed to the binary branch, whose attachment is labelled
"application/pdf" whatever the declared type was. -/
theorem pdf_suffix_forces_pdf_path (env : Env) (f : UploadedFile)
    (hname : jsEndsWith (jsToLower f.name) ".pdf" = true)
    (hsize : f.bytes.length ≤ MAX_FILE_BYTES)
    (hbad : env.pdfParse f.bytes = none ∨
      ∃ t, env.pdfParse f.bytes = some t ∧ t.length < 500) :
    isPdfFile f = true ∧
    extractTextFromFile env f = .ok ⟨(env.pdfParse f.bytes).getD "", f.bytes⟩ ∧
    POST env (some "earnings_summary") (some f) = scannedBranch env f.bytes ∧
    firstInlineMime (buildContents scannedUserPrompt
      (some { mimeType := "application/pdf", data := env.base64 f.bytes })) =
      "application/pdf" := by
  have hpdf : isPdfFile f = true := by
    unfold isPdfFile
    rw [hname, Bool.or_true]
  have hex : extractedText env f = (env.pdfParse f.bytes).getD "" := by
    unfold extractedText
    rw [hpdf]
    rfl
  have hshort : (jsTrim (extractedText env f)).length < 500 := by
    rcases hbad with hnone | ⟨t, hsome, hlen⟩
    · rw [hex, hnone]
      decide
    · rw [hex, hsome]
      calc (jsTrim ((some t).getD "")).length
          ≤ ((some t).getD "" : String).length := jsTrim_length_le _
        _ < 500 := hlen
  refine ⟨hpdf, ?_, ?_, rfl⟩
  · rw [extractTextFromFile_ok env f hsize, hex]
  · rw [POST_ok env f hsize, if_pos ?_]
    rw [isScanned_eq_trim f _ hpdf]
    simpa using hshort

theorem pdf_suffix_forces_pdf_path_witness :
    isPdfFile upperPdfFile = true ∧
    POST envNull (some "earnings_summary") (some upperPdfFile) =
      scannedBranch envNull upperPdfFile.bytes := by
  have h := pdf_suffix_forces_pdf_path envNull upperPdfFile (by decide) (by decide)
    (Or.inl rfl)
  exact ⟨h.1, h.2.2.1⟩
